import Mathlib

/-!
Shallow embedding of `certbot-he-hook.py`, a certbot manual-DNS hook that
drives the Hurricane Electric (HE) web console.  The script reads its
parameters from environment variables, logs in to `https://dns.he.net`,
resolves the numeric zone id by scraping the management page, and either
creates a TXT validation record (auth phase) or deletes one (cleanup phase).

Modelling choices, each tied to the source:
  * HTML pages are modelled by exactly the features the script queries with
    BeautifulSoup: presence of `div#dns_err` (login error marker), presence
    of `div#dns_status` (delete success marker), the list of `img` tags with
    their `name`/`alt` attributes and optional `value` attribute (zone-id
    extraction), and the list of `tr.dns_tr` rows with their optional `id`
    attribute and the texts of their `td.dns_view` cells (record-id
    extraction).  `html.find` returns the first matching element in document
    order, which is `List.find?` on these lists.
  * The provider is a function `World : Request → Page`; the requests a run
    issues are collected in order in a trace (`List Request`).
  * Python exceptions become an error type `PyError`; `try/except` clauses in
    `main` catch exactly the constructors the source names.  An exception no
    handler catches escapes `main` as `Outcome.unhandled` (the interpreter
    would print a traceback), as opposed to `Outcome.exit code` from
    `return`.
  * `environ` is `String → Option String` (all values are strings).  The
    value bound to `he_propagation_seconds` is either the Python int `30` or
    a string from the environment; `time.sleep` accepts only numbers, so a
    string argument raises `TypeError`.  This dynamic typing is modelled by
    `PyVal`.
-/

namespace CertbotHeHook

/-- An `img` tag on the DNS management page, with the attributes the script
reads: `name`, `alt` (matched against the zone name and `"delete"`), and the
optional `value` attribute read as `zone_id["value"]`. -/
structure ImgTag where
  name : String
  alt : String
  value : Option String
  deriving DecidableEq, Repr

/-- A `tr` row of class `dns_tr` in a create response: its optional `id`
attribute (read as `record["id"]`) and the `get_text()` of each `td` cell of
class `dns_view`, in document order. -/
structure DnsRow where
  id : Option String
  cells : List String
  deriving DecidableEq, Repr

/-- An HTML response page, reduced to the features the script inspects. -/
structure Page where
  hasDnsErr : Bool
  hasDnsStatus : Bool
  imgs : List ImgTag
  rows : List DnsRow
  deriving DecidableEq, Repr

/-- An HTTP request the script can issue.
  * `getLanding`  : `GET https://dns.he.net/` (cookie bootstrap in `login`)
  * `postLogin`   : `POST https://dns.he.net` with `email`/`pass` fields
  * `getZones`    : `GET https://dns.he.net` (DNS management page)
  * `postIndex`   : `POST https://dns.he.net/index.cgi` with form data -/
inductive Request where
  | getLanding : Request
  | postLogin (email pw : String) : Request
  | getZones : Request
  | postIndex (data : List (String × String)) : Request
  deriving DecidableEq, Repr

/-- The provider: a deterministic response to every request. -/
def World : Type := Request → Page

/-- Python exceptions relevant to the script.  `main` catches `KeyError` only
around the `environ` lookups, `ValueError` around `login` and
`set_validation`, and `RuntimeError` around `delete_validation` and
`set_validation`; anything else escapes. -/
inductive PyError where
  | valueError (msg : String) : PyError
  | runtimeError (msg : String) : PyError
  | keyError (key : String) : PyError
  | typeError (msg : String) : PyError
  deriving DecidableEq, Repr

/-- A Python value as bound to `he_propagation_seconds`: the default int
`30`, or the raw string from `environ`. -/
inductive PyVal where
  | int (n : Nat) : PyVal
  | str (s : String) : PyVal
  deriving DecidableEq, Repr

/-- How a run ends: a `return code` reaching `exit(main())`, or an exception
no handler catches (the interpreter prints a traceback and exits nonzero). -/
inductive Outcome where
  | exit (code : Nat) : Outcome
  | unhandled (e : PyError) : Outcome
  deriving DecidableEq, Repr

/-- Observable result of one run: its outcome, the lines printed to stdout
and stderr, the durations of `sleep` calls performed, and the HTTP requests
issued in order. -/
structure RunResult where
  outcome : Outcome
  stdout : List String
  stderr : List String
  slept : List Nat
  trace : List Request
  deriving DecidableEq, Repr

/-- Lookup of a key in form data (first binding wins). -/
def lookupForm (data : List (String × String)) (k : String) : Option String :=
  (data.find? (fun p => p.1 == k)).map (fun p => p.2)

/-- Error message of the login `ValueError`. -/
def loginErrMsg : String := "ERROR: HE login failed, check HE_USER and HE_PASS"

/-- Error message of the zone-resolution `ValueError`. -/
def zoneErrMsg : String := "ERROR: Domain not found in account, check CERTBOT_DOMAIN"

/-- Error message of the delete `RuntimeError`. -/
def deleteErrMsg : String :=
  "ERROR: Unable to delete validation record, either it does not exist, or it needs to be manually removed"

/-- Error message of the create `RuntimeError`. -/
def createErrMsg : String :=
  "ERROR: Record not created or not found in HE, check that it was created"

/-- Diagnostic for a missing required environment variable: the `%s`
formatting of the caught `KeyError` renders the key in single quotes. -/
def envErrMsg (v : String) : String :=
  "ERROR: Required environment variable " ++ "'" ++ v ++ "'" ++ " is unset"

/-- `login(username, password)`: `GET` the landing page (for the session
cookie; the response body is discarded), `POST` the credentials, and raise
`ValueError` iff the response contains `div#dns_err`.  Returns the
(implicit) authenticated session as `Unit` together with the request
trace. -/
def login (w : World) (username password : String) :
    Except PyError Unit × List Request :=
  let login_response := w (Request.postLogin username password)
  (if login_response.hasDnsErr then
      Except.error (PyError.valueError loginErrMsg)
    else
      Except.ok (),
   [Request.getLanding, Request.postLogin username password])

/-- `get_zone_id(session, zone)`: `GET` the management page, find the first
`img` with `name == zone` and `alt == "delete"`; if none, raise
`ValueError`, else read its `value` attribute (`zone_id["value"]` raises
`KeyError` when the attribute is absent). -/
def get_zone_id (w : World) (zone : String) :
    Except PyError String × List Request :=
  let zones_response := w Request.getZones
  (match zones_response.imgs.find?
      (fun img => img.name == zone && img.alt == "delete") with
   | none => Except.error (PyError.valueError zoneErrMsg)
   | some zone_id =>
     match zone_id.value with
     | none => Except.error (PyError.keyError "value")
     | some v => Except.ok v,
   [Request.getZones])

/-- The form data of the delete `POST` in `delete_validation`, in source
order. -/
def deleteForm (zone_id record_id : String) : List (String × String) :=
  [("menu", "edit_zone"),
   ("hosted_dns_zoneid", zone_id),
   ("hosted_dns_recordid", record_id),
   ("hosted_dns_editzone", "1"),
   ("hosted_dns_delrecord", "1"),
   ("hosted_dns_delconfirm", "delete")]

/-- `delete_validation(session, zone, record_id)`: resolve the zone id
(re-raising its `ValueError`), `POST` the delete form, and raise
`RuntimeError` iff the response lacks `div#dns_status`. -/
def delete_validation (w : World) (zone record_id : String) :
    Except PyError Unit × List Request :=
  match get_zone_id w zone with
  | (Except.error e, t) => (Except.error e, t)
  | (Except.ok zone_id, t) =>
    let delete_response := w (Request.postIndex (deleteForm zone_id record_id))
    (if delete_response.hasDnsStatus then
        Except.ok ()
      else
        Except.error (PyError.runtimeError deleteErrMsg),
     t ++ [Request.postIndex (deleteForm zone_id record_id)])

/-- The form data of the create `POST` in `set_validation`, in source
order. -/
def createForm (zone_id record_name certbot_validation : String) :
    List (String × String) :=
  [("account", ""),
   ("menu", "edit_zone"),
   ("Type", "TXT"),
   ("hosted_dns_zoneid", zone_id),
   ("hosted_dns_recordid", ""),
   ("hosted_dns_editzone", "1"),
   ("Priority", ""),
   ("Name", record_name),
   ("Content", certbot_validation),
   ("TTL", "300"),
   ("hosted_dns_editrecord", "Submit")]

/-- The inner loop of the row scan in `set_validation`: the `found` flag is
true iff some `td.dns_view` cell's text equals `record_name`. -/
def rowMatches (record_name : String) (record : DnsRow) : Bool :=
  record.cells.any (fun value => value == record_name)

/-- The row scan at the end of `set_validation`: for each `tr.dns_tr` row in
document order, `found` becomes true iff some `td.dns_view` cell's text
equals `record_name`; on the first such row, `record["id"]` is returned
(`KeyError` when the `id` attribute is absent).  If no row matches, raise
`RuntimeError`. -/
def findValidationRecord (records : List DnsRow) (record_name : String) :
    Except PyError String :=
  match records with
  | [] => Except.error (PyError.runtimeError createErrMsg)
  | record :: rest =>
    if rowMatches record_name record then
      match record.id with
      | some i => Except.ok i
      | none => Except.error (PyError.keyError "id")
    else
      findValidationRecord rest record_name

/-- `set_validation(session, zone, certbot_domain, certbot_validation)`:
resolve the zone id (re-raising its `ValueError`), build
`record_name = "_acme-challenge.%s" % certbot_domain`, `POST` the create
form, and scan the response rows for the new record's id. -/
def set_validation (w : World) (zone certbot_domain certbot_validation : String) :
    Except PyError String × List Request :=
  match get_zone_id w zone with
  | (Except.error e, t) => (Except.error e, t)
  | (Except.ok zone_id, t) =>
    let record_name := "_acme-challenge." ++ certbot_domain
    let create_response :=
      w (Request.postIndex (createForm zone_id record_name certbot_validation))
    (findValidationRecord create_response.rows record_name,
     t ++ [Request.postIndex (createForm zone_id record_name certbot_validation)])

/-- The always-required environment variables, in the order `main` reads
them (the first missing one raises the `KeyError` that is reported). -/
def requiredVars : List String :=
  ["HE_USERNAME", "HE_PASSWORD", "HE_ZONE", "CERTBOT_DOMAIN", "CERTBOT_VALIDATION"]

/-- Body of `main` after the environment variables have been read
successfully.  Split out of `main` only to keep the nested `environ`
matches readable; control flow follows the source line by line. -/
def mainBody (env : String → Option String) (w : World)
    (he_username he_password he_zone certbot_domain certbot_validation : String) :
    RunResult :=
  match login w he_username he_password with
  | (Except.error (PyError.valueError msg), t) =>
    { outcome := Outcome.exit 1, stdout := [], stderr := [msg], slept := [], trace := t }
  | (Except.error e, t) =>
    { outcome := Outcome.unhandled e, stdout := [], stderr := [], slept := [], trace := t }
  | (Except.ok _, t) =>
    match env "CERTBOT_AUTH_OUTPUT" with
    | some certbot_auth_output =>
      match delete_validation w he_zone certbot_auth_output with
      | (Except.ok _, t2) =>
        { outcome := Outcome.exit 0, stdout := [], stderr := [], slept := [],
          trace := t ++ t2 }
      | (Except.error (PyError.runtimeError msg), t2) =>
        { outcome := Outcome.exit 1, stdout := [], stderr := [msg], slept := [],
          trace := t ++ t2 }
      | (Except.error e, t2) =>
        { outcome := Outcome.unhandled e, stdout := [], stderr := [], slept := [],
          trace := t ++ t2 }
    | none =>
      let he_propagation_seconds : PyVal :=
        match env "HE_PROPAGATION_SECONDS" with
        | some s => PyVal.str s
        | none => PyVal.int 30
      match set_validation w he_zone certbot_domain certbot_validation with
      | (Except.ok record_id, t2) =>
        match he_propagation_seconds with
        | PyVal.int n =>
          { outcome := Outcome.exit 0, stdout := [record_id], stderr := [],
            slept := [n], trace := t ++ t2 }
        | PyVal.str _ =>
          { outcome := Outcome.unhandled (PyError.typeError "an integer is required"),
            stdout := [record_id], stderr := [], slept := [], trace := t ++ t2 }
      | (Except.error (PyError.valueError msg), t2) =>
        { outcome := Outcome.exit 1, stdout := [], stderr := [msg], slept := [],
          trace := t ++ t2 }
      | (Except.error (PyError.runtimeError msg), t2) =>
        { outcome := Outcome.exit 1, stdout := [], stderr := [msg], slept := [],
          trace := t ++ t2 }
      | (Except.error e, t2) =>
        { outcome := Outcome.unhandled e, stdout := [], stderr := [], slept := [],
          trace := t ++ t2 }

/-- `main()`: read the five required environment variables in order
(reporting the first missing one and returning 1), log in (reporting a
`ValueError` and returning 1), select the phase by presence of
`CERTBOT_AUTH_OUTPUT`, and run the cleanup or auth path. -/
def main (env : String → Option String) (w : World) : RunResult :=
  match env "HE_USERNAME" with
  | none =>
    { outcome := Outcome.exit 1, stdout := [], stderr := [envErrMsg "HE_USERNAME"],
      slept := [], trace := [] }
  | some he_username =>
    match env "HE_PASSWORD" with
    | none =>
      { outcome := Outcome.exit 1, stdout := [], stderr := [envErrMsg "HE_PASSWORD"],
        slept := [], trace := [] }
    | some he_password =>
      match env "HE_ZONE" with
      | none =>
        { outcome := Outcome.exit 1, stdout := [], stderr := [envErrMsg "HE_ZONE"],
          slept := [], trace := [] }
      | some he_zone =>
        match env "CERTBOT_DOMAIN" with
        | none =>
          { outcome := Outcome.exit 1, stdout := [],
            stderr := [envErrMsg "CERTBOT_DOMAIN"], slept := [], trace := [] }
        | some certbot_domain =>
          match env "CERTBOT_VALIDATION" with
          | none =>
            { outcome := Outcome.exit 1, stdout := [],
              stderr := [envErrMsg "CERTBOT_VALIDATION"], slept := [], trace := [] }
          | some certbot_validation =>
            mainBody env w he_username he_password he_zone certbot_domain
              certbot_validation

/-! Concrete fixtures used by the witness and evaluation theorems below:
small environments and mocked providers mirroring the spec's end-to-end
scenarios (zone id `12345`, record id `98765`). -/

/-- An environment built from an association list (first binding wins). -/
def envOf (l : List (String × String)) : String → Option String :=
  fun k => (l.find? (fun p => p.1 == k)).map (fun p => p.2)

/-- The five required variables, bound to the spec's sample values. -/
def baseEnvList : List (String × String) :=
  [("HE_USERNAME", "user"), ("HE_PASSWORD", "pw"), ("HE_ZONE", "example.com"),
   ("CERTBOT_DOMAIN", "example.com"), ("CERTBOT_VALIDATION", "abc123")]

/-- Auth-phase environment (no `CERTBOT_AUTH_OUTPUT`). -/
def envAuth : String → Option String := envOf baseEnvList

/-- Cleanup-phase environment (`CERTBOT_AUTH_OUTPUT=98765`). -/
def envCleanup : String → Option String :=
  envOf (baseEnvList ++ [("CERTBOT_AUTH_OUTPUT", "98765")])

/-- Auth-phase environment with `HE_PROPAGATION_SECONDS=45`. -/
def envAuthProp : String → Option String :=
  envOf (baseEnvList ++ [("HE_PROPAGATION_SECONDS", "45")])

/-- Cleanup-phase environment with `HE_PROPAGATION_SECONDS=45` as well. -/
def envCleanupProp : String → Option String :=
  envOf (baseEnvList ++ [("CERTBOT_AUTH_OUTPUT", "98765"),
    ("HE_PROPAGATION_SECONDS", "45")])

/-- Environment missing `HE_ZONE` (the other four present). -/
def envMissingZone : String → Option String :=
  envOf [("HE_USERNAME", "user"), ("HE_PASSWORD", "pw"),
    ("CERTBOT_DOMAIN", "example.com"), ("CERTBOT_VALIDATION", "abc123")]

/-- A provider on which everything succeeds: login accepted, zone
`example.com` has id `12345`, the create response lists the new record in a
row with id `98765`, and the delete response carries `div#dns_status`. -/
def wGood : World := fun _ =>
  { hasDnsErr := false, hasDnsStatus := true,
    imgs := [{ name := "example.com", alt := "delete", value := some "12345" }],
    rows := [{ id := some "98765", cells := ["_acme-challenge.example.com"] }] }

/-- A provider that accepts the login but whose account has no zones. -/
def wNoZone : World := fun _ =>
  { hasDnsErr := false, hasDnsStatus := false, imgs := [], rows := [] }

/-- A provider that rejects the credentials (`div#dns_err` present). -/
def wBadLogin : World := fun _ =>
  { hasDnsErr := true, hasDnsStatus := false, imgs := [], rows := [] }

/-- A provider whose zone-delete `img` lacks the `value` attribute. -/
def wNoValue : World := fun _ =>
  { hasDnsErr := false, hasDnsStatus := true,
    imgs := [{ name := "example.com", alt := "delete", value := none }],
    rows := [] }

/-- A provider whose matching record row lacks the `id` attribute. -/
def wNoRowId : World := fun _ =>
  { hasDnsErr := false, hasDnsStatus := true,
    imgs := [{ name := "example.com", alt := "delete", value := some "12345" }],
    rows := [{ id := none, cells := ["_acme-challenge.example.com"] }] }

/-- A provider where the zone resolves but the create response contains no
matching record row. -/
def wCreateNoMatch : World := fun _ =>
  { hasDnsErr := false, hasDnsStatus := false,
    imgs := [{ name := "example.com", alt := "delete", value := some "12345" }],
    rows := [] }

/-- When the five required variables are present, `main` runs `mainBody` on
their values. -/
theorem main_eq_mainBody (env : String → Option String) (w : World)
    (u p zone d v : String)
    (h1 : env "HE_USERNAME" = some u) (h2 : env "HE_PASSWORD" = some p)
    (h3 : env "HE_ZONE" = some zone) (h4 : env "CERTBOT_DOMAIN" = some d)
    (h5 : env "CERTBOT_VALIDATION" = some v) :
    main env w = mainBody env w u p zone d v := by
  unfold main
  rw [h1, h2, h3, h4, h5]

/-! Helper lemmas relating the row scan of `set_validation` to
`List.find?` (BeautifulSoup's first-match-in-document-order), and
characterizing the request traces of the operations. -/

/-- The row scan on the first row (in document order) whose cells contain
the record name: it returns that row's `id` attribute, or `KeyError` when
the attribute is absent. -/
theorem findValidationRecord_of_find_some (records : List DnsRow)
    (record_name : String) (r : DnsRow)
    (h : records.find? (rowMatches record_name) = some r) :
    findValidationRecord records record_name =
      match r.id with
      | some i => Except.ok i
      | none => Except.error (PyError.keyError "id") := by
  induction records with
  | nil => simp [List.find?] at h
  | cons a l ih =>
    by_cases ha : rowMatches record_name a = true
    · rw [List.find?_cons_of_pos l ha] at h
      cases h
      rw [findValidationRecord, if_pos ha]
    · rw [List.find?_cons_of_neg l ha] at h
      rw [findValidationRecord, if_neg ha]
      exact ih h

/-- When no row's cells contain the record name, the row scan raises the
create `RuntimeError`. -/
theorem findValidationRecord_of_find_none (records : List DnsRow)
    (record_name : String)
    (h : records.find? (rowMatches record_name) = none) :
    findValidationRecord records record_name =
      Except.error (PyError.runtimeError createErrMsg) := by
  induction records with
  | nil => rfl
  | cons a l ih =>
    by_cases ha : rowMatches record_name a = true
    · rw [List.find?_cons_of_pos l ha] at h
      cases h
    · rw [List.find?_cons_of_neg l ha] at h
      rw [findValidationRecord, if_neg ha]
      exact ih h

/-- `get_zone_id` issues exactly the management-page `GET`. -/
theorem get_zone_id_trace (w : World) (zone : String) :
    (get_zone_id w zone).2 = [Request.getZones] := rfl

/-- `delete_validation` issues the management-page `GET` first, then at most
the delete `POST`. -/
theorem delete_validation_trace (w : World) (zone record_id : String) :
    (delete_validation w zone record_id).2 = [Request.getZones] ∨
    ∃ form, (delete_validation w zone record_id).2 =
      [Request.getZones, Request.postIndex form] := by
  unfold delete_validation
  cases hz : get_zone_id w zone with
  | mk res t =>
    have ht : t = [Request.getZones] := by
      have h2 : (get_zone_id w zone).2 = [Request.getZones] := rfl
      rw [hz] at h2
      exact h2
    cases res with
    | error e => left; simp [ht]
    | ok zone_id =>
      right
      exact ⟨deleteForm zone_id record_id, by simp [ht]⟩

/-- `set_validation` issues the management-page `GET` first, then at most
the create `POST`. -/
theorem set_validation_trace (w : World) (zone d v : String) :
    (set_validation w zone d v).2 = [Request.getZones] ∨
    ∃ form, (set_validation w zone d v).2 =
      [Request.getZones, Request.postIndex form] := by
  unfold set_validation
  cases hz : get_zone_id w zone with
  | mk res t =>
    have ht : t = [Request.getZones] := by
      have h2 : (get_zone_id w zone).2 = [Request.getZones] := rfl
      rw [hz] at h2
      exact h2
    cases res with
    | error e => left; simp [ht]
    | ok zone_id =>
      right
      exact ⟨createForm zone_id ("_acme-challenge." ++ d) v, by simp [ht]⟩

/-- C3: for every create operation with domain `d` and validation token `v`
(in any run where the zone resolves), the submitted form-encoded POST has
record type `TXT`, name `"_acme-challenge." ++ d`, content `v`, TTL
`"300"`, and an empty record-id field. -/
theorem C3_create_form_fields (w : World) (zone d v zid : String)
    (t : List Request)
    (h : get_zone_id w zone = (Except.ok zid, t)) :
    (set_validation w zone d v).2 =
      t ++ [Request.postIndex (createForm zid ("_acme-challenge." ++ d) v)] ∧
    lookupForm (createForm zid ("_acme-challenge." ++ d) v) "Type" = some "TXT" ∧
    lookupForm (createForm zid ("_acme-challenge." ++ d) v) "Name" =
      some ("_acme-challenge." ++ d) ∧
    lookupForm (createForm zid ("_acme-challenge." ++ d) v) "Content" = some v ∧
    lookupForm (createForm zid ("_acme-challenge." ++ d) v) "TTL" = some "300" ∧
    lookupForm (createForm zid ("_acme-challenge." ++ d) v) "hosted_dns_recordid" =
      some "" := by
  refine ⟨?_, rfl, rfl, rfl, rfl, rfl⟩
  unfold set_validation
  rw [h]

/-- Witness for C3 at the spec's sample inputs. -/
theorem C3_witness :
    get_zone_id wGood "example.com" = (Except.ok "12345", [Request.getZones]) ∧
    ((set_validation wGood "example.com" "example.com" "abc123").2 =
      [Request.getZones] ++
        [Request.postIndex
          (createForm "12345" ("_acme-challenge." ++ "example.com") "abc123")] ∧
     lookupForm (createForm "12345" ("_acme-challenge." ++ "example.com") "abc123")
       "Type" = some "TXT" ∧
     lookupForm (createForm "12345" ("_acme-challenge." ++ "example.com") "abc123")
       "Name" = some ("_acme-challenge." ++ "example.com") ∧
     lookupForm (createForm "12345" ("_acme-challenge." ++ "example.com") "abc123")
       "Content" = some "abc123" ∧
     lookupForm (createForm "12345" ("_acme-challenge." ++ "example.com") "abc123")
       "TTL" = some "300" ∧
     lookupForm (createForm "12345" ("_acme-challenge." ++ "example.com") "abc123")
       "hosted_dns_recordid" = some "") :=
  ⟨rfl, C3_create_form_fields wGood "example.com" "example.com" "abc123" "12345"
    [Request.getZones] rfl⟩

/-- C4: for every create-response page, the create operation returns the
`id` attribute of the first `dns_tr` row (in document order) that contains
a `dns_view` cell whose text equals the constructed record name; when no
row matches, it fails with the create `RuntimeError` (MutationFailure). -/
theorem C4_create_scan (w : World) (zone d v zid : String) (t : List Request)
    (hz : get_zone_id w zone = (Except.ok zid, t)) :
    (∀ r : DnsRow,
      (w (Request.postIndex
          (createForm zid ("_acme-challenge." ++ d) v))).rows.find?
          (rowMatches ("_acme-challenge." ++ d)) = some r →
      ∀ i : String, r.id = some i →
      (set_validation w zone d v).1 = Except.ok i) ∧
    ((w (Request.postIndex
        (createForm zid ("_acme-challenge." ++ d) v))).rows.find?
        (rowMatches ("_acme-challenge." ++ d)) = none →
      (set_validation w zone d v).1 =
        Except.error (PyError.runtimeError createErrMsg)) := by
  have hset : (set_validation w zone d v).1 =
      findValidationRecord
        (w (Request.postIndex
          (createForm zid ("_acme-challenge." ++ d) v))).rows
        ("_acme-challenge." ++ d) := by
    unfold set_validation
    rw [hz]
  constructor
  · intro r hr i hi
    rw [hset, findValidationRecord_of_find_some _ _ r hr, hi]
  · intro hnone
    rw [hset, findValidationRecord_of_find_none _ _ hnone]

/-- Witness for C4: the matching row's id `98765` is returned, and a
response without a matching row yields the create `RuntimeError`. -/
theorem C4_witness :
    (get_zone_id wGood "example.com" = (Except.ok "12345", [Request.getZones]) ∧
     (wGood (Request.postIndex
         (createForm "12345" ("_acme-challenge." ++ "example.com") "abc123"))).rows.find?
         (rowMatches ("_acme-challenge." ++ "example.com")) =
       some { id := some "98765", cells := ["_acme-challenge.example.com"] } ∧
     (set_validation wGood "example.com" "example.com" "abc123").1 =
       Except.ok "98765") ∧
    (get_zone_id wCreateNoMatch "example.com" =
       (Except.ok "12345", [Request.getZones]) ∧
     (set_validation wCreateNoMatch "example.com" "example.com" "abc123").1 =
       Except.error (PyError.runtimeError createErrMsg)) := by
  refine ⟨⟨rfl, by decide, ?_⟩, ⟨rfl, ?_⟩⟩
  · exact (C4_create_scan wGood "example.com" "example.com" "abc123" "12345"
      [Request.getZones] rfl).1
      { id := some "98765", cells := ["_acme-challenge.example.com"] }
      (by decide) "98765" rfl
  · exact (C4_create_scan wCreateNoMatch "example.com" "example.com" "abc123"
      "12345" [Request.getZones] rfl).2 (by decide)

/-- C5: for every delete-response page, the delete operation succeeds iff
`div#dns_status` is present; when absent it fails with the delete
`RuntimeError` (MutationFailure); and a successful cleanup run exits 0 with
no standard output. -/
theorem C5_delete_status (w : World) (env : String → Option String)
    (u p zone d v rid zid : String) (t : List Request)
    (hz : get_zone_id w zone = (Except.ok zid, t))
    (h1 : env "HE_USERNAME" = some u) (h2 : env "HE_PASSWORD" = some p)
    (h3 : env "HE_ZONE" = some zone) (h4 : env "CERTBOT_DOMAIN" = some d)
    (h5 : env "CERTBOT_VALIDATION" = some v)
    (h6 : env "CERTBOT_AUTH_OUTPUT" = some rid)
    (hlogin : (w (Request.postLogin u p)).hasDnsErr = false) :
    ((delete_validation w zone rid).1 = Except.ok () ↔
      (w (Request.postIndex (deleteForm zid rid))).hasDnsStatus = true) ∧
    ((w (Request.postIndex (deleteForm zid rid))).hasDnsStatus = false →
      (delete_validation w zone rid).1 =
        Except.error (PyError.runtimeError deleteErrMsg)) ∧
    ((w (Request.postIndex (deleteForm zid rid))).hasDnsStatus = true →
      (main env w).outcome = Outcome.exit 0 ∧ (main env w).stdout = []) := by
  have hlog : login w u p =
      (Except.ok (), [Request.getLanding, Request.postLogin u p]) := by
    simp [login, hlogin]
  have hmain := main_eq_mainBody env w u p zone d v h1 h2 h3 h4 h5
  cases hstat : (w (Request.postIndex (deleteForm zid rid))).hasDnsStatus with
  | false =>
    have hdel : delete_validation w zone rid =
        (Except.error (PyError.runtimeError deleteErrMsg),
         t ++ [Request.postIndex (deleteForm zid rid)]) := by
      simp [delete_validation, hz, hstat]
    refine ⟨?_, fun _ => by rw [hdel], fun hc => by simp at hc⟩
    rw [hdel]
    simp
  | true =>
    have hdel : delete_validation w zone rid =
        (Except.ok (), t ++ [Request.postIndex (deleteForm zid rid)]) := by
      simp [delete_validation, hz, hstat]
    refine ⟨by rw [hdel]; simp, fun hc => by simp at hc, fun _ => ?_⟩
    rw [hmain]
    constructor
    · simp [mainBody, hlog, h6, hdel]
    · simp [mainBody, hlog, h6, hdel]

/-- Witness for C5: delete succeeds against the good provider and the
cleanup run exits 0 with empty stdout; against a provider lacking the
status marker the delete fails with the `RuntimeError`. -/
theorem C5_witness :
    ((delete_validation wGood "example.com" "98765").1 = Except.ok () ↔
      (wGood (Request.postIndex (deleteForm "12345" "98765"))).hasDnsStatus = true) ∧
    ((main envCleanup wGood).outcome = Outcome.exit 0 ∧
      (main envCleanup wGood).stdout = []) ∧
    (delete_validation wCreateNoMatch "example.com" "98765").1 =
      Except.error (PyError.runtimeError deleteErrMsg) := by
  have hgood := C5_delete_status wGood envCleanup "user" "pw" "example.com"
    "example.com" "abc123" "98765" "12345" [Request.getZones]
    rfl rfl rfl rfl rfl rfl rfl rfl
  have hbad := C5_delete_status wCreateNoMatch envCleanup "user" "pw" "example.com"
    "example.com" "abc123" "98765" "12345" [Request.getZones]
    rfl rfl rfl rfl rfl rfl rfl rfl
  exact ⟨hgood.1, hgood.2.2 rfl, hbad.2.1 rfl⟩

/-- C6: login fails with the login `ValueError` (AuthFailure) exactly when
`div#dns_err` is present in the login response, and a rejected credential
pair makes the run exit 1 with the login diagnostic before any
zone-resolution request is issued. -/
theorem C6_login_err (w : World) (env : String → Option String)
    (u p zone d v : String)
    (h1 : env "HE_USERNAME" = some u) (h2 : env "HE_PASSWORD" = some p)
    (h3 : env "HE_ZONE" = some zone) (h4 : env "CERTBOT_DOMAIN" = some d)
    (h5 : env "CERTBOT_VALIDATION" = some v) :
    ((login w u p).1 = Except.error (PyError.valueError loginErrMsg) ↔
      (w (Request.postLogin u p)).hasDnsErr = true) ∧
    ((w (Request.postLogin u p)).hasDnsErr = true →
      (main env w).outcome = Outcome.exit 1 ∧
      (main env w).stderr = [loginErrMsg] ∧
      (main env w).trace = [Request.getLanding, Request.postLogin u p] ∧
      Request.getZones ∉ (main env w).trace) := by
  have hmain := main_eq_mainBody env w u p zone d v h1 h2 h3 h4 h5
  cases herr : (w (Request.postLogin u p)).hasDnsErr with
  | false =>
    refine ⟨?_, fun hc => by cases hc⟩
    simp [login, herr]
  | true =>
    have hlog : login w u p =
        (Except.error (PyError.valueError loginErrMsg),
         [Request.getLanding, Request.postLogin u p]) := by
      simp [login, herr]
    have hrun : main env w =
        { outcome := Outcome.exit 1, stdout := [], stderr := [loginErrMsg],
          slept := [], trace := [Request.getLanding, Request.postLogin u p] } := by
      rw [hmain]
      simp [mainBody, hlog]
    refine ⟨by simp [hlog], fun _ => ⟨by simp [hrun], by simp [hrun],
      by simp [hrun], ?_⟩⟩
    rw [hrun]
    simp

/-- Witness for C6 at a provider that rejects the credentials. -/
theorem C6_witness :
    (wBadLogin (Request.postLogin "user" "pw")).hasDnsErr = true ∧
    ((main envAuth wBadLogin).outcome = Outcome.exit 1 ∧
     (main envAuth wBadLogin).stderr = [loginErrMsg] ∧
     (main envAuth wBadLogin).trace =
       [Request.getLanding, Request.postLogin "user" "pw"] ∧
     Request.getZones ∉ (main envAuth wBadLogin).trace) :=
  ⟨rfl, (C6_login_err wBadLogin envAuth "user" "pw" "example.com" "example.com"
    "abc123" rfl rfl rfl rfl rfl).2 rfl⟩

/-- C8: for every environment missing at least one always-required
variable, the run prints a diagnostic naming the first missing variable (a
missing one), exits 1, and issues no HTTP request. -/
theorem C8_missing_required_env (env : String → Option String) (w : World)
    (x : String)
    (h : requiredVars.find? (fun y => (env y).isNone) = some x) :
    env x = none ∧
    main env w =
      { outcome := Outcome.exit 1, stdout := [], stderr := [envErrMsg x],
        slept := [], trace := [] } := by
  have hx : env x = none := by
    have hp := List.find?_some h
    simpa using hp
  refine ⟨hx, ?_⟩
  cases h1 : env "HE_USERNAME" with
  | none =>
    simp [requiredVars, List.find?, h1] at h
    subst h
    simp [main, h1]
  | some a =>
    cases h2 : env "HE_PASSWORD" with
    | none =>
      simp [requiredVars, List.find?, h1, h2] at h
      subst h
      simp [main, h1, h2]
    | some b =>
      cases h3 : env "HE_ZONE" with
      | none =>
        simp [requiredVars, List.find?, h1, h2, h3] at h
        subst h
        simp [main, h1, h2, h3]
      | some c =>
        cases h4 : env "CERTBOT_DOMAIN" with
        | none =>
          simp [requiredVars, List.find?, h1, h2, h3, h4] at h
          subst h
          simp [main, h1, h2, h3, h4]
        | some d =>
          cases h5 : env "CERTBOT_VALIDATION" with
          | none =>
            simp [requiredVars, List.find?, h1, h2, h3, h4, h5] at h
            subst h
            simp [main, h1, h2, h3, h4, h5]
          | some e =>
            simp [requiredVars, List.find?, h1, h2, h3, h4, h5] at h

/-- Witness for C8 at an environment missing `HE_ZONE`. -/
theorem C8_witness :
    requiredVars.find? (fun y => (envMissingZone y).isNone) = some "HE_ZONE" ∧
    (envMissingZone "HE_ZONE" = none ∧
     main envMissingZone wGood =
       { outcome := Outcome.exit 1, stdout := [], stderr := [envErrMsg "HE_ZONE"],
         slept := [], trace := [] }) :=
  ⟨rfl, C8_missing_required_env envMissingZone wGood "HE_ZONE" rfl⟩

/-- Every run's request trace is a prefix of the chain landing `GET`, login
`POST`, management `GET`, mutation `POST`. -/
theorem main_trace_shape (env : String → Option String) (w : World) :
    (main env w).trace = [] ∨
    (∃ u p, (main env w).trace =
      [Request.getLanding, Request.postLogin u p]) ∨
    (∃ u p, (main env w).trace =
      [Request.getLanding, Request.postLogin u p, Request.getZones]) ∨
    (∃ u p form, (main env w).trace =
      [Request.getLanding, Request.postLogin u p, Request.getZones,
        Request.postIndex form]) := by
  cases h1 : env "HE_USERNAME" with
  | none => left; simp [main, h1]
  | some u =>
  cases h2 : env "HE_PASSWORD" with
  | none => left; simp [main, h1, h2]
  | some p =>
  cases h3 : env "HE_ZONE" with
  | none => left; simp [main, h1, h2, h3]
  | some zone =>
  cases h4 : env "CERTBOT_DOMAIN" with
  | none => left; simp [main, h1, h2, h3, h4]
  | some d =>
  cases h5 : env "CERTBOT_VALIDATION" with
  | none => left; simp [main, h1, h2, h3, h4, h5]
  | some v =>
  rw [main_eq_mainBody env w u p zone d v h1 h2 h3 h4 h5]
  cases herr : (w (Request.postLogin u p)).hasDnsErr with
  | true =>
    right; left
    refine ⟨u, p, ?_⟩
    have hlog : login w u p =
        (Except.error (PyError.valueError loginErrMsg),
         [Request.getLanding, Request.postLogin u p]) := by
      simp [login, herr]
    simp [mainBody, hlog]
  | false =>
    have hlog : login w u p =
        (Except.ok (), [Request.getLanding, Request.postLogin u p]) := by
      simp [login, herr]
    cases h6 : env "CERTBOT_AUTH_OUTPUT" with
    | some rid =>
      cases hdv : delete_validation w zone rid with
      | mk res t2 =>
        have ht2 := delete_validation_trace w zone rid
        rw [hdv] at ht2
        simp at ht2
        have htr : (mainBody env w u p zone d v).trace =
            [Request.getLanding, Request.postLogin u p] ++ t2 := by
          cases res with
          | ok a => simp [mainBody, hlog, h6, hdv]
          | error e => cases e <;> simp [mainBody, hlog, h6, hdv]
        rcases ht2 with ht2 | ⟨form, ht2⟩
        · right; right; left
          exact ⟨u, p, by rw [htr, ht2]; simp⟩
        · right; right; right
          exact ⟨u, p, form, by rw [htr, ht2]; simp⟩
    | none =>
      cases hsv : set_validation w zone d v with
      | mk res t2 =>
        have ht2 := set_validation_trace w zone d v
        rw [hsv] at ht2
        simp at ht2
        have htr : (mainBody env w u p zone d v).trace =
            [Request.getLanding, Request.postLogin u p] ++ t2 := by
          cases res with
          | ok a =>
            cases hprop : env "HE_PROPAGATION_SECONDS" with
            | none => simp [mainBody, hlog, h6, hsv, hprop]
            | some s => simp [mainBody, hlog, h6, hsv, hprop]
          | error e => cases e <;> simp [mainBody, hlog, h6, hsv]
        rcases ht2 with ht2 | ⟨form, ht2⟩
        · right; right; left
          exact ⟨u, p, by rw [htr, ht2]; simp⟩
        · right; right; right
          exact ⟨u, p, form, by rw [htr, ht2]; simp⟩

/-- C9: every run that issues a mutation `POST` issues exactly the chain
landing `GET`, login `POST`, management `GET`, mutation `POST`, in that
order; and both the create and the delete operation perform the
management-page `GET` (zone resolution) fresh as their first request. -/
theorem C9_request_order (env : String → Option String) (w : World) :
    ((∃ form, Request.postIndex form ∈ (main env w).trace) →
      ∃ u p form, (main env w).trace =
        [Request.getLanding, Request.postLogin u p, Request.getZones,
          Request.postIndex form]) ∧
    (∀ zone d v, ∃ rest,
      (set_validation w zone d v).2 = Request.getZones :: rest) ∧
    (∀ zone rid, ∃ rest,
      (delete_validation w zone rid).2 = Request.getZones :: rest) := by
  refine ⟨?_, ?_, ?_⟩
  · rintro ⟨form, hmem⟩
    rcases main_trace_shape env w with h | ⟨u, p, h⟩ | ⟨u, p, h⟩ |
      ⟨u, p, form2, h⟩
    · rw [h] at hmem
      cases hmem
    · rw [h] at hmem
      simp at hmem
    · rw [h] at hmem
      simp at hmem
    · exact ⟨u, p, form2, h⟩
  · intro zone d v
    rcases set_validation_trace w zone d v with h | ⟨form, h⟩
    · exact ⟨[], h⟩
    · exact ⟨[Request.postIndex form], h⟩
  · intro zone rid
    rcases delete_validation_trace w zone rid with h | ⟨form, h⟩
    · exact ⟨[], h⟩
    · exact ⟨[Request.postIndex form], h⟩

/-- Witness for C9 at the cleanup scenario against the good provider. -/
theorem C9_witness :
    (∃ form, Request.postIndex form ∈ (main envCleanup wGood).trace) ∧
    (∃ u p form, (main envCleanup wGood).trace =
      [Request.getLanding, Request.postLogin u p, Request.getZones,
        Request.postIndex form]) :=
  ⟨⟨deleteForm "12345" "98765", by decide⟩,
   (C9_request_order envCleanup wGood).1 ⟨deleteForm "12345" "98765", by decide⟩⟩

/-- C10: identifier extraction is total only when the located markup carries
the expected attribute.  When the zone-delete `img` is found but lacks the
`value` attribute, or the first matching record row lacks the `id`
attribute, the unguarded access raises `KeyError`, which escapes `main`
unhandled instead of being reported as ResolutionFailure or
MutationFailure. -/
theorem C10_unguarded_attribute (w : World) (env : String → Option String)
    (u p zone d v : String)
    (h1 : env "HE_USERNAME" = some u) (h2 : env "HE_PASSWORD" = some p)
    (h3 : env "HE_ZONE" = some zone) (h4 : env "CERTBOT_DOMAIN" = some d)
    (h5 : env "CERTBOT_VALIDATION" = some v)
    (hlogin : (w (Request.postLogin u p)).hasDnsErr = false) :
    (∀ img : ImgTag,
      (w Request.getZones).imgs.find?
          (fun i => i.name == zone && i.alt == "delete") = some img →
      img.value = none →
      (get_zone_id w zone).1 = Except.error (PyError.keyError "value") ∧
      (main env w).outcome = Outcome.unhandled (PyError.keyError "value")) ∧
    (env "CERTBOT_AUTH_OUTPUT" = none →
      ∀ (zid : String) (t : List Request) (r : DnsRow),
      get_zone_id w zone = (Except.ok zid, t) →
      (w (Request.postIndex
          (createForm zid ("_acme-challenge." ++ d) v))).rows.find?
          (rowMatches ("_acme-challenge." ++ d)) = some r →
      r.id = none →
      (set_validation w zone d v).1 = Except.error (PyError.keyError "id") ∧
      (main env w).outcome = Outcome.unhandled (PyError.keyError "id")) := by
  have hmain := main_eq_mainBody env w u p zone d v h1 h2 h3 h4 h5
  have hlog : login w u p =
      (Except.ok (), [Request.getLanding, Request.postLogin u p]) := by
    simp [login, hlogin]
  constructor
  · intro img hfind hval
    have hgz : get_zone_id w zone =
        (Except.error (PyError.keyError "value"), [Request.getZones]) := by
      simp [get_zone_id, hfind, hval]
    refine ⟨by rw [hgz], ?_⟩
    rw [hmain]
    cases h6 : env "CERTBOT_AUTH_OUTPUT" with
    | some rid =>
      have hdv : delete_validation w zone rid =
          (Except.error (PyError.keyError "value"), [Request.getZones]) := by
        simp [delete_validation, hgz]
      simp [mainBody, hlog, h6, hdv]
    | none =>
      have hsv : set_validation w zone d v =
          (Except.error (PyError.keyError "value"), [Request.getZones]) := by
        simp [set_validation, hgz]
      simp [mainBody, hlog, h6, hsv]
  · intro h6 zid t r hgz hfind hid
    have hsv : set_validation w zone d v =
        (Except.error (PyError.keyError "id"),
         t ++ [Request.postIndex (createForm zid ("_acme-challenge." ++ d) v)]) := by
      simp [set_validation, hgz,
        findValidationRecord_of_find_some _ _ r hfind, hid]
    refine ⟨by rw [hsv], ?_⟩
    rw [hmain]
    simp [mainBody, hlog, h6, hsv]

/-- Witness for C10: a zone-delete `img` without `value` makes the cleanup
run crash with `KeyError`, and a matching row without `id` makes the auth
run crash with `KeyError`. -/
theorem C10_witness :
    (main envCleanup wNoValue).outcome =
      Outcome.unhandled (PyError.keyError "value") ∧
    (main envAuth wNoRowId).outcome =
      Outcome.unhandled (PyError.keyError "id") :=
  ⟨((C10_unguarded_attribute wNoValue envCleanup "user" "pw" "example.com"
      "example.com" "abc123" rfl rfl rfl rfl rfl rfl).1
      { name := "example.com", alt := "delete", value := none } rfl rfl).2,
   ((C10_unguarded_attribute wNoRowId envAuth "user" "pw" "example.com"
      "example.com" "abc123" rfl rfl rfl rfl rfl rfl).2 rfl
      "12345" [Request.getZones]
      { id := none, cells := ["_acme-challenge.example.com"] }
      rfl (by decide) rfl).2⟩

/-- C1 fails on the code: a cleanup run whose zone is absent from the
account raises `ValueError` inside `delete_validation`, and the cleanup
branch of `main` catches only `RuntimeError`, so the failure escapes
unhandled with no diagnostic on the error stream; the same failure in the
auth phase is handled (diagnostic plus exit code 1). -/
theorem C1_cleanup_resolution_unhandled :
    (main envCleanup wNoZone).outcome =
      Outcome.unhandled (PyError.valueError zoneErrMsg) ∧
    (main envCleanup wNoZone).stderr = [] ∧
    (main envAuth wNoZone).outcome = Outcome.exit 1 ∧
    (main envAuth wNoZone).stderr = [zoneErrMsg] := by
  decide

/-- C2 fails on the code: with `HE_PROPAGATION_SECONDS` unset a successful
auth run prints the record id, sleeps 30, and exits 0; but with it set the
string value reaches `time.sleep`, which raises an unhandled `TypeError`
after the record id is printed: no sleep happens and the exit code is not
0. -/
theorem C2_propagation_sleep_eval :
    (main envAuth wGood).outcome = Outcome.exit 0 ∧
    (main envAuth wGood).stdout = ["98765"] ∧
    (main envAuth wGood).slept = [30] ∧
    (main envAuthProp wGood).stdout = ["98765"] ∧
    (main envAuthProp wGood).slept = [] ∧
    (main envAuthProp wGood).outcome =
      Outcome.unhandled (PyError.typeError "an integer is required") := by
  decide

/-- C7: the phase dispatch itself behaves as claimed (cleanup runs only the
delete path with the `CERTBOT_AUTH_OUTPUT` value as record id and exits 0
with no stdout; an auth run with the propagation variable unset prints the
created record id and exits 0), but the auth half of the claim fails on the
code when `HE_PROPAGATION_SECONDS` is set: the run prints the id and then
crashes with an unhandled `TypeError` instead of exiting 0. -/
theorem C7_phase_dispatch_eval :
    (main envCleanup wGood).outcome = Outcome.exit 0 ∧
    (main envCleanup wGood).stdout = [] ∧
    (main envCleanup wGood).trace =
      [Request.getLanding, Request.postLogin "user" "pw", Request.getZones,
        Request.postIndex (deleteForm "12345" "98765")] ∧
    lookupForm (deleteForm "12345" "98765") "hosted_dns_recordid" =
      some "98765" ∧
    (main envCleanupProp wGood).outcome = Outcome.exit 0 ∧
    (main envAuth wGood).outcome = Outcome.exit 0 ∧
    (main envAuth wGood).stdout = ["98765"] ∧
    (main envAuthProp wGood).stdout = ["98765"] ∧
    (main envAuthProp wGood).outcome =
      Outcome.unhandled (PyError.typeError "an integer is required") := by
  decide

end CertbotHeHook
